import Mathlib

/-!
Shallow embedding of the mailing-service core (Django app `mailing`):
the `Mailing` model's computed status and derived metrics
(`src/mailing/models.py`), the send endpoint `MailingSendView.post`
(`src/mailing/views.py`), the update view's `is_active` guard, and
`MailingForm.clean` (`src/mailing/forms.py`).

Timestamps are modelled as integers (`Int`); the database of
`MailingLog` rows as a list; the mail transport (`django.core.mail.send_mail`)
as a function returning `Except String String` — the error carries `str(e)`,
and the success payload is ignored by the code, which writes a fixed
server-response string.
-/

/-- A recipient row (`users.models.Recipients`): only the fields the core
logic reads are modelled. -/
structure Recipients where
  id : Nat
  email : String
  deriving Repr, DecidableEq

/-- The acting user, as the mailing views see it: identity, membership in
the "Managers" group, and the superuser flag. -/
structure Actor where
  id : Nat
  isManager : Bool
  isSuperuser : Bool
  deriving Repr, DecidableEq

/-- A `mailing.models.Mailing` row.  `recipients` is the many-to-many set,
snapshotted as a list; `ownerId` stands for the `owner` foreign key. -/
structure Mailing where
  id : Nat
  ownerId : Nat
  title : String
  start_time : Int
  end_time : Int
  message_text : String
  recipients : List Recipients
  is_active : Bool
  deriving Repr, DecidableEq

/-- A `mailing.models.MailingLog` row (the spec's DeliveryAttempt):
status is one of "sent", "failed", "pending". -/
structure MailingLog where
  mailingId : Nat
  recipientId : Nat
  status : String
  server_response : String
  error_message : String
  deriving Repr, DecidableEq

/-- Embedding of `self.logs`: the log rows belonging to a mailing, out of the whole table. -/
def logsOf (m : Mailing) (db : List MailingLog) : List MailingLog :=
  db.filter (fun l => l.mailingId == m.id)

/-- Embedding of `Mailing.status` (models.py lines 33–50), branch for branch:
disabled check, then empty-log check, then end-time check, then the
running check, then the fallback. -/
def Mailing.status (m : Mailing) (db : List MailingLog) (now : Int) : String :=
  if !m.is_active then "Отключена"
  else if (logsOf m db).length == 0 then "Создана"
  else if now > m.end_time then "Завершена"
  else if (logsOf m db).length > 0 && m.is_active then "Запущена"
  else "Создана"

/-- Embedding of `Mailing.sent_count`: log rows of this mailing with status "sent". -/
def Mailing.sent_count (m : Mailing) (db : List MailingLog) : Nat :=
  ((logsOf m db).filter (fun l => l.status == "sent")).length

/-- Embedding of `Mailing.failed_count`: log rows of this mailing with status "failed". -/
def Mailing.failed_count (m : Mailing) (db : List MailingLog) : Nat :=
  ((logsOf m db).filter (fun l => l.status == "failed")).length

/-- Embedding of `Mailing.total_count`: all log rows of this mailing, any status. -/
def Mailing.total_count (m : Mailing) (db : List MailingLog) : Nat :=
  (logsOf m db).length

/-- Python's `round(x, 2)` over exact rationals: round to the nearest
multiple of 1/100.  (Python rounds ties to even on binary floats; no
property proved here evaluates at a tie, so the tie rule is immaterial.) -/
def pyround2 (q : ℚ) : ℚ :=
  ((round (q * 100) : ℤ) : ℚ) / 100

/-- Embedding of `Mailing.success_rate` (models.py lines 78–83): 0 when there are no
log rows, otherwise `round(sent_count / total_count * 100, 2)`. -/
def Mailing.success_rate (m : Mailing) (db : List MailingLog) : ℚ :=
  if m.total_count db = 0 then 0
  else pyround2 (((m.sent_count db : ℚ) / (m.total_count db : ℚ)) * 100)

/-- The spec's four-way case analysis for the status, in the spec's order:
Disabled, then Created on an empty log, then Completed past `end_time`,
then Running. -/
def statusSpec (m : Mailing) (db : List MailingLog) (now : Int) : String :=
  if !m.is_active then "Отключена"
  else if (logsOf m db).length = 0 then "Создана"
  else if now > m.end_time then "Завершена"
  else "Запущена"

/-- C1: for every mailing, log table and current time, the computed
status equals the spec's ordered four-way case analysis; in particular an
active mailing with zero attempts past its `end_time` reports "Создана"
(Created), and an active mailing with at least one attempt not past
`end_time` reports "Запущена" (Running). -/
theorem C1_status_cases (m : Mailing) (db : List MailingLog) (now : Int) :
    m.status db now = statusSpec m db now ∧
    (m.is_active = true → logsOf m db = [] → now > m.end_time →
      m.status db now = "Создана") ∧
    (m.is_active = true → (logsOf m db).length > 0 → ¬ now > m.end_time →
      m.status db now = "Запущена") := by
  refine ⟨?_, ?_, ?_⟩
  · unfold Mailing.status statusSpec
    by_cases ha : m.is_active
    · by_cases hl : (logsOf m db).length = 0
      · simp [ha, hl]
      · by_cases ht : now > m.end_time <;>
          simp [ha, hl, ht, Nat.pos_of_ne_zero hl]
    · simp [ha]
  · intro ha hl _
    simp [Mailing.status, ha, hl]
  · intro ha hl ht
    have hne : (logsOf m db).length ≠ 0 := Nat.pos_iff_ne_zero.mp hl
    simp [Mailing.status, ha, hne, ht, hl]

/-- Witness for C1 at a concrete input: an active mailing with an empty
log whose `end_time` (0) is already past at time 5 reports "Создана". -/
theorem C1_status_cases_witness :
    (Mailing.mk 1 1 "t" 0 0 "b" [] true).status [] 5 = "Создана" :=
  (C1_status_cases (Mailing.mk 1 1 "t" 0 0 "b" [] true) [] 5).2.1 rfl rfl
    (by decide)

/-- The mail transport (`django.core.mail.send_mail` with
`fail_silently=False`): raises (`.error` with `str(e)`) on failure; the
success payload is never read by the view, which writes a fixed
server-response string. -/
def Transport : Type := Recipients → Except String String

/-- The "sent" log row the view creates on transport success
(views.py lines 304–310): a hard-coded server response, empty error. -/
def mkSentLog (m : Mailing) (r : Recipients) : MailingLog :=
  ⟨m.id, r.id, "sent", "250 OK: Message accepted", ""⟩

/-- The "failed" log row the view creates when the transport raises
(views.py lines 314–320): empty server response, `str(e)` as the error. -/
def mkFailedLog (m : Mailing) (r : Recipients) (e : String) : MailingLog :=
  ⟨m.id, r.id, "failed", "", e⟩

/-- The one log row a single loop iteration appends for a recipient. -/
def attemptLog (m : Mailing) (tr : Transport) (r : Recipients) : MailingLog :=
  match tr r with
  | .ok _ => mkSentLog m r
  | .error e => mkFailedLog m r e

/-- Whether the transport succeeds for a recipient. -/
def transportOk (tr : Transport) (r : Recipients) : Bool :=
  match tr r with
  | .ok _ => true
  | .error _ => false

/-- The per-recipient loop of `MailingSendView.post` (views.py lines
290–321): one transport attempt and one appended log row per recipient,
in order, counting successes and failures.  Returns
(appended rows, sent_count, failed_count). -/
def sendLoop (m : Mailing) (tr : Transport) :
    List Recipients → List MailingLog × Nat × Nat
  | [] => ([], 0, 0)
  | r :: rs =>
    let rest := sendLoop m tr rs
    match tr r with
    | .ok _ => (mkSentLog m r :: rest.1, rest.2.1 + 1, rest.2.2)
    | .error e => (mkFailedLog m r e :: rest.1, rest.2.1, rest.2.2 + 1)

/-- Outcome of one POST to the send endpoint. -/
inductive SendResult where
  | denied (reason : String)
  | success (sent failed : Nat)
  deriving Repr, DecidableEq

/-- The log table after the request, together with the user-visible
result. -/
structure SendOutcome where
  db : List MailingLog
  result : SendResult
  deriving Repr, DecidableEq

/-- Embedding of `MailingSendView.post` (views.py lines 264–334), check for check in
source order: the owner-or-manager gate, the empty-recipients gate, the
`is_active` gate, the `end_time` gate, then the send loop.  Each denial
leaves the log table unchanged. -/
def MailingSendView.post (m : Mailing) (actor : Actor) (now : Int)
    (db : List MailingLog) (tr : Transport) : SendOutcome :=
  if !(m.ownerId == actor.id || actor.isManager) then
    ⟨db, .denied "У вас нет прав для отправки этой рассылки."⟩
  else if m.recipients.length == 0 then
    ⟨db, .denied "Невозможно отправить рассылку: нет получателей."⟩
  else if !m.is_active then
    ⟨db, .denied "Невозможно отправить рассылку: рассылка отключена менеджером."⟩
  else if now > m.end_time then
    ⟨db, .denied "Невозможно отправить рассылку: время рассылки истекло."⟩
  else
    let out := sendLoop m tr m.recipients
    ⟨db ++ out.1, .success out.2.1 out.2.2⟩

/-- Unfolding of the send loop: one log row per recipient in order, and
the two counters count the transport successes and failures. -/
theorem sendLoop_eq (m : Mailing) (tr : Transport) (rs : List Recipients) :
    sendLoop m tr rs =
      (rs.map (attemptLog m tr),
       (rs.filter (transportOk tr)).length,
       (rs.filter (fun r => !transportOk tr r)).length) := by
  induction rs with
  | nil => rfl
  | cons r rs ih =>
    cases h : tr r <;>
      simp [sendLoop, attemptLog, transportOk, ih, h, List.filter_cons]

/-- A list splits into the elements satisfying a predicate and the rest. -/
theorem length_filter_add_length_filter_not {α : Type} (p : α → Bool)
    (l : List α) :
    (l.filter p).length + (l.filter (fun a => !p a)).length = l.length := by
  induction l with
  | nil => rfl
  | cons a l ih =>
    by_cases h : p a = true <;> simp [List.filter_cons, h] <;> omega

/-- The authorization condition of the send view as the Bool the code
evaluates. -/
theorem auth_bool_of (m : Mailing) (actor : Actor)
    (hauth : m.ownerId = actor.id ∨ actor.isManager = true) :
    (m.ownerId == actor.id || actor.isManager) = true := by
  rcases hauth with h | h <;> simp [h]

/-- C2: when the actor is authorized but a send precondition fails —
no recipients, or the mailing is inactive, or `now` is strictly past
`end_time` — the send is denied with the cause-specific message, the log
table is returned unchanged (zero rows written), and the three messages
are pairwise distinct. -/
theorem C2_precondition_denials (m : Mailing) (actor : Actor) (now : Int)
    (db : List MailingLog) (tr : Transport)
    (hauth : m.ownerId = actor.id ∨ actor.isManager = true) :
    (m.recipients = [] →
      MailingSendView.post m actor now db tr =
        ⟨db, .denied "Невозможно отправить рассылку: нет получателей."⟩) ∧
    (m.recipients ≠ [] → m.is_active = false →
      MailingSendView.post m actor now db tr =
        ⟨db, .denied
          "Невозможно отправить рассылку: рассылка отключена менеджером."⟩) ∧
    (m.recipients ≠ [] → m.is_active = true → now > m.end_time →
      MailingSendView.post m actor now db tr =
        ⟨db, .denied "Невозможно отправить рассылку: время рассылки истекло."⟩) ∧
    ((("Невозможно отправить рассылку: нет получателей." : String) ≠
        "Невозможно отправить рассылку: рассылка отключена менеджером.") ∧
     (("Невозможно отправить рассылку: нет получателей." : String) ≠
        "Невозможно отправить рассылку: время рассылки истекло.") ∧
     (("Невозможно отправить рассылку: рассылка отключена менеджером." : String) ≠
        "Невозможно отправить рассылку: время рассылки истекло.")) := by
  have hb := auth_bool_of m actor hauth
  refine ⟨?_, ?_, ?_, by decide, by decide, by decide⟩
  · intro h
    simp [MailingSendView.post, hb, h]
  · intro h hact
    have hn : m.recipients.length ≠ 0 := by
      simpa [List.length_eq_zero] using h
    simp [MailingSendView.post, hb, hn, hact]
  · intro h hact ht
    have hn : m.recipients.length ≠ 0 := by
      simpa [List.length_eq_zero] using h
    simp [MailingSendView.post, hb, hn, hact, ht]

/-- Witness for C2: an owner sending a mailing with no recipients at
time 0 is denied with the no-recipients message and the log stays empty. -/
theorem C2_precondition_denials_witness :
    MailingSendView.post (Mailing.mk 1 1 "t" 0 10 "b" [] true)
        (Actor.mk 1 false false) 0 [] (fun _ => .ok "") =
      ⟨[], .denied "Невозможно отправить рассылку: нет получателей."⟩ :=
  (C2_precondition_denials (Mailing.mk 1 1 "t" 0 10 "b" [] true)
      (Actor.mk 1 false false) 0 [] (fun _ => .ok "") (Or.inl rfl)).1 rfl

/-- C3: on an eligible send, every recipient gets exactly one log row
(in recipient order, appended after the existing table), the reported
result is success with sent = number of transport successes and
failed = number of transport failures, sent + failed is the number of
recipients processed, a failing recipient's row is "failed" and carries
the failure's text, a succeeding recipient's row is "sent", and no
failure aborts the loop or escapes as an exception (the result is always
`success`). -/
theorem C3_independent_outcomes (m : Mailing) (actor : Actor) (now : Int)
    (db : List MailingLog) (tr : Transport)
    (hauth : m.ownerId = actor.id ∨ actor.isManager = true)
    (hrec : m.recipients ≠ [])
    (hact : m.is_active = true)
    (htime : ¬ now > m.end_time) :
    (MailingSendView.post m actor now db tr).db =
        db ++ m.recipients.map (attemptLog m tr) ∧
    (MailingSendView.post m actor now db tr).result =
        .success (m.recipients.filter (transportOk tr)).length
          (m.recipients.filter (fun r => !transportOk tr r)).length ∧
    (m.recipients.filter (transportOk tr)).length +
        (m.recipients.filter (fun r => !transportOk tr r)).length =
        m.recipients.length ∧
    (∀ r, transportOk tr r = false → (attemptLog m tr r).status = "failed") ∧
    (∀ r, transportOk tr r = true → (attemptLog m tr r).status = "sent") ∧
    (∀ r e, tr r = .error e → (attemptLog m tr r).error_message = e) := by
  have hb := auth_bool_of m actor hauth
  have hn : m.recipients.length ≠ 0 := by
    simpa [List.length_eq_zero] using hrec
  refine ⟨?_, ?_, length_filter_add_length_filter_not _ _, ?_, ?_, ?_⟩
  · simp [MailingSendView.post, hb, hn, hact, htime, sendLoop_eq]
  · simp [MailingSendView.post, hb, hn, hact, htime, sendLoop_eq]
  · intro r h
    unfold transportOk at h
    unfold attemptLog
    cases hr : tr r <;> simp [hr, mkSentLog, mkFailedLog] at h ⊢
  · intro r h
    unfold transportOk at h
    unfold attemptLog
    cases hr : tr r <;> simp [hr, mkSentLog, mkFailedLog] at h ⊢
  · intro r e h
    simp [attemptLog, h, mkFailedLog]

/-- The three recipients of the C3 example. -/
def rA : Recipients := ⟨1, "a@example.com"⟩

/-- Second recipient of the C3 example (its transport call fails). -/
def rB : Recipients := ⟨2, "b@example.com"⟩

/-- Third recipient of the C3 example. -/
def rC : Recipients := ⟨3, "c@example.com"⟩

/-- The C3 example mailing: three recipients, active, window open. -/
def mABC : Mailing := ⟨1, 1, "t", 0, 10, "body", [rA, rB, rC], true⟩

/-- The owner of the example mailing. -/
def ownerActor : Actor := ⟨1, false, false⟩

/-- A transport that raises exactly for recipient 2. -/
def trOneFail : Transport := fun r =>
  if r.id == 2 then .error "SMTP connection refused" else .ok ""

/-- Witness for C3: with the transport failing for exactly one of three
recipients, the send reports sent=2/failed=1 and appends rows whose
statuses are sent, failed, sent in recipient order. -/
theorem C3_independent_outcomes_witness :
    (MailingSendView.post mABC ownerActor 0 [] trOneFail).result =
        SendResult.success 2 1 ∧
    (MailingSendView.post mABC ownerActor 0 [] trOneFail).db.map
        MailingLog.status = ["sent", "failed", "sent"] := by
  have h := C3_independent_outcomes mABC ownerActor 0 [] trOneFail
    (Or.inl rfl) (by decide) rfl (by decide)
  refine ⟨?_, ?_⟩
  · rw [h.2.1]; rfl
  · rw [h.1]; rfl

/-- A transport succeeding with a nontrivial confirmation payload. -/
def trConf : Transport := fun _ => .ok "221 Bye"

/-- Counterexample to C5: the transport succeeds for recipient rA with
confirmation payload "221 Bye", yet the appended "sent" row's server
response is the hard-coded literal "250 OK: Message accepted" — no row
ever carries the transport-provided confirmation string. -/
theorem C5_counterexample :
    trConf rA = Except.ok "221 Bye" ∧
    (MailingSendView.post (Mailing.mk 1 1 "t" 0 10 "b" [rA] true)
        ownerActor 0 [] trConf).db =
      [MailingLog.mk 1 1 "sent" "250 OK: Message accepted" ""] ∧
    ∀ l ∈ (MailingSendView.post (Mailing.mk 1 1 "t" 0 10 "b" [rA] true)
        ownerActor 0 [] trConf).db,
      l.server_response ≠ "221 Bye" := by
  refine ⟨rfl, rfl, ?_⟩
  decide

/-- C5 as amended: on an eligible send, for every recipient whose
transport call succeeds the appended row is a "sent" row whose server
response is the fixed literal "250 OK: Message accepted" (not the
transport's confirmation payload, which the code ignores), and for every
recipient whose transport call raises the appended row is a "failed" row
whose error message is that failure's textual description. -/
theorem C5_row_contents (m : Mailing) (actor : Actor) (now : Int)
    (db : List MailingLog) (tr : Transport)
    (hauth : m.ownerId = actor.id ∨ actor.isManager = true)
    (hrec : m.recipients ≠ [])
    (hact : m.is_active = true)
    (htime : ¬ now > m.end_time) :
    (MailingSendView.post m actor now db tr).db =
        db ++ m.recipients.map (attemptLog m tr) ∧
    (∀ r s, tr r = .ok s →
        attemptLog m tr r =
          MailingLog.mk m.id r.id "sent" "250 OK: Message accepted" "") ∧
    (∀ r e, tr r = .error e →
        attemptLog m tr r = MailingLog.mk m.id r.id "failed" "" e) := by
  have hb := auth_bool_of m actor hauth
  have hn : m.recipients.length ≠ 0 := by
    simpa [List.length_eq_zero] using hrec
  refine ⟨?_, ?_, ?_⟩
  · simp [MailingSendView.post, hb, hn, hact, htime, sendLoop_eq]
  · intro r s h
    simp [attemptLog, h, mkSentLog]
  · intro r e h
    simp [attemptLog, h, mkFailedLog]

/-- Witness for the amended C5: the single appended row of the
counterexample send is the "sent" row with the fixed server response. -/
theorem C5_row_contents_witness :
    (MailingSendView.post (Mailing.mk 1 1 "t" 0 10 "b" [rA] true)
        ownerActor 0 [] trConf).db =
      [MailingLog.mk 1 1 "sent" "250 OK: Message accepted" ""] := by
  have h := C5_row_contents (Mailing.mk 1 1 "t" 0 10 "b" [rA] true)
    ownerActor 0 [] trConf (Or.inl rfl) (by decide) rfl (by decide)
  rw [h.1]
  rfl

/-- C6: the send endpoint is not idempotent — an eligible send appends
exactly one fresh row per recipient regardless of the rows already in the
table, so two consecutive eligible sends grow the table by twice the
recipient count. -/
theorem C6_not_idempotent (m : Mailing) (actor : Actor) (now : Int)
    (db : List MailingLog) (tr : Transport)
    (hauth : m.ownerId = actor.id ∨ actor.isManager = true)
    (hrec : m.recipients ≠ [])
    (hact : m.is_active = true)
    (htime : ¬ now > m.end_time) :
    (MailingSendView.post m actor now db tr).db.length =
        db.length + m.recipients.length ∧
    (MailingSendView.post m actor now
        (MailingSendView.post m actor now db tr).db tr).db.length =
        db.length + 2 * m.recipients.length := by
  have hb := auth_bool_of m actor hauth
  have hn : m.recipients.length ≠ 0 := by
    simpa [List.length_eq_zero] using hrec
  have hone : ∀ d : List MailingLog,
      (MailingSendView.post m actor now d tr).db.length =
        d.length + m.recipients.length := by
    intro d
    simp [MailingSendView.post, hb, hn, hact, htime, sendLoop_eq]
  refine ⟨hone db, ?_⟩
  rw [hone _, hone db]
  omega

/-- The two-recipient mailing of the C6 example. -/
def mAB : Mailing := ⟨1, 1, "t", 0, 10, "body", [rA, rB], true⟩

/-- Witness for C6: sending twice to an eligible mailing with 2
recipients starting from an empty log leaves 4 rows. -/
theorem C6_not_idempotent_witness :
    (MailingSendView.post mAB ownerActor 0
        (MailingSendView.post mAB ownerActor 0 [] trConf).db trConf).db.length =
      4 := by
  have h := C6_not_idempotent mAB ownerActor 0 [] trConf
    (Or.inl rfl) (by decide) rfl (by decide)
  simpa [mAB] using h.2

/-- C7: an actor who is neither the mailing's owner nor a manager is
denied with the authorization message and the log table is unchanged;
an owner or manager is never given that authorization denial (the check
passes, whatever happens afterwards). -/
theorem C7_authorization (m : Mailing) (actor : Actor) (now : Int)
    (db : List MailingLog) (tr : Transport) :
    (¬ (m.ownerId = actor.id ∨ actor.isManager = true) →
      MailingSendView.post m actor now db tr =
        ⟨db, .denied "У вас нет прав для отправки этой рассылки."⟩) ∧
    ((m.ownerId = actor.id ∨ actor.isManager = true) →
      (MailingSendView.post m actor now db tr).result ≠
        SendResult.denied "У вас нет прав для отправки этой рассылки.") := by
  constructor
  · intro h
    have hb : (m.ownerId == actor.id || actor.isManager) = false := by
      push_neg at h
      simp [h.1, h.2]
    simp [MailingSendView.post, hb]
  · intro hauth
    have hb := auth_bool_of m actor hauth
    simp only [MailingSendView.post, hb, Bool.not_true]
    split_ifs <;> simp_all

/-- Witness for C7: an actor (id 99, not a manager) who does not own
mailing mAB is denied with the authorization message and the empty log
table is unchanged. -/
theorem C7_authorization_witness :
    MailingSendView.post mAB (Actor.mk 99 false false) 0 [] trConf =
      ⟨[], .denied "У вас нет прав для отправки этой рассылки."⟩ :=
  (C7_authorization mAB (Actor.mk 99 false false) 0 [] trConf).1 (by decide)

/-- The mailing of the C4 example (no recipients are needed for the
metric computations). -/
def mMetrics : Mailing := ⟨1, 1, "t", 0, 10, "body", [], true⟩

/-- A log table holding exactly one failed attempt for mailing 1. -/
def dbOneFailed : List MailingLog := [⟨1, 1, "failed", "", "boom"⟩]

/-- Counterexample to C4: success_rate can be 0 with a nonzero
total_count — one failed attempt and no sent attempt gives
round(0/1*100, 2) = 0 while total_count = 1, so "success_rate equals 0
exactly when total_count is 0" fails in the only-if direction. -/
theorem C4_counterexample :
    mMetrics.success_rate dbOneFailed = 0 ∧
    mMetrics.total_count dbOneFailed ≠ 0 := by
  constructor
  · simp [Mailing.success_rate, Mailing.total_count, Mailing.sent_count,
      logsOf, dbOneFailed, mMetrics, pyround2]
  · decide

/-- C4 as amended: success_rate is 0 whenever total_count is 0 (no
division-by-zero: the quotient is never formed on an empty log), and for
a nonzero total_count it equals round(sent_count / total_count * 100, 2);
it can additionally be 0 with a nonzero total_count when sent_count is 0. -/
theorem C4_success_rate (m : Mailing) (db : List MailingLog) :
    (m.total_count db = 0 → m.success_rate db = 0) ∧
    (m.total_count db ≠ 0 →
      m.success_rate db =
        pyround2 (((m.sent_count db : ℚ) / (m.total_count db : ℚ)) * 100)) := by
  constructor <;> intro h <;> simp [Mailing.success_rate, h]

/-- A log table with ten attempts for mailing 1: seven sent, three failed. -/
def dbTen : List MailingLog :=
  [⟨1, 1, "sent", "250 OK: Message accepted", ""⟩,
   ⟨1, 2, "sent", "250 OK: Message accepted", ""⟩,
   ⟨1, 3, "sent", "250 OK: Message accepted", ""⟩,
   ⟨1, 4, "sent", "250 OK: Message accepted", ""⟩,
   ⟨1, 5, "sent", "250 OK: Message accepted", ""⟩,
   ⟨1, 6, "sent", "250 OK: Message accepted", ""⟩,
   ⟨1, 7, "sent", "250 OK: Message accepted", ""⟩,
   ⟨1, 8, "failed", "", "boom"⟩,
   ⟨1, 9, "failed", "", "boom"⟩,
   ⟨1, 10, "failed", "", "boom"⟩]

/-- Witness for the amended C4: seven sent out of ten total gives a
success rate of exactly 70. -/
theorem C4_success_rate_witness :
    mMetrics.success_rate dbTen = 70 := by
  have h := (C4_success_rate mMetrics dbTen).2 (by decide)
  have hs : mMetrics.sent_count dbTen = 7 := by decide
  have ht : mMetrics.total_count dbTen = 10 := by decide
  rw [h, hs, ht]
  norm_num [pyround2, round_eq]

/-- The time-window part of `MailingForm.clean` (forms.py lines 62–76):
when both datetimes are present (datetimes are always truthy in Python,
so presence is `Option`) and `start_time >= end_time`, a ValidationError
is raised with the message below; otherwise the pair passes through.  The
template-copy branch of `clean` touches only `message_text` and is
independent of this check. -/
def MailingForm.clean (start_time end_time : Option Int) :
    Except String (Option Int × Option Int) :=
  match start_time, end_time with
  | some s, some e =>
    if s ≥ e then
      Except.error "Время окончания должно быть позже времени начала."
    else Except.ok (some s, some e)
  | s, e => Except.ok (s, e)

/-- C8: with both times present, form validation rejects
`start_time >= end_time` and accepts `start_time < end_time`; the data
layer does not enforce the invariant — the `Mailing` record type itself
admits a value with `end_time <= start_time`. -/
theorem C8_time_window_validation (s e : Int) :
    (s ≥ e → MailingForm.clean (some s) (some e) =
        Except.error "Время окончания должно быть позже времени начала.") ∧
    (s < e → MailingForm.clean (some s) (some e) =
        Except.ok (some s, some e)) ∧
    (∃ m : Mailing, m.end_time ≤ m.start_time) := by
  refine ⟨?_, ?_, ⟨Mailing.mk 1 1 "t" 5 0 "b" [] true, by norm_num⟩⟩
  · intro h
    simp [MailingForm.clean, h]
  · intro h
    simp [MailingForm.clean, not_le.mpr h]

/-- Witness for C8: start 5, end 3 is rejected with the validation
message. -/
theorem C8_time_window_validation_witness :
    MailingForm.clean (some 5) (some 3) =
      Except.error "Время окончания должно быть позже времени начала." :=
  (C8_time_window_validation 5 3).1 (by norm_num)

/-- The editable fields a POST to the mailing update view submits (the
`MailingForm` field list). -/
structure MailingFormData where
  title : String
  start_time : Int
  end_time : Int
  message_text : String
  recipients : List Recipients
  is_active : Bool
  deriving Repr, DecidableEq

/-- Saving a bound `MailingForm` onto an existing mailing row: every
submitted field overwrites the stored field. -/
def applyForm (old : Mailing) (d : MailingFormData) : Mailing :=
  { old with
    title := d.title
    start_time := d.start_time
    end_time := d.end_time
    message_text := d.message_text
    recipients := d.recipients
    is_active := d.is_active }

/-- Embedding of `MailingUpdateView.form_valid` (views.py lines 200–210) together with
the `OwnerRequiredMixin` gate it sits behind: a non-owner never reaches
`form_valid` (`none`); for a non-manager non-superuser actor the
submitted `is_active` is overwritten with the stored value before the
save. -/
def MailingUpdateView.form_valid (actor : Actor) (old : Mailing)
    (d : MailingFormData) : Option Mailing :=
  if !(old.ownerId == actor.id) then none
  else
    let d' :=
      if actor.isManager || actor.isSuperuser then d
      else { d with is_active := old.is_active }
    some (applyForm old d')

/-- C9: an update by a non-manager non-superuser actor (necessarily the
owner, or the view denies) keeps the stored `is_active` regardless of the
submitted value, while every other submitted field takes effect; a
manager or superuser's submitted `is_active` does take effect. -/
theorem C9_is_active_preserved (actor : Actor) (old : Mailing)
    (d : MailingFormData) (hown : old.ownerId = actor.id) :
    (actor.isManager = false → actor.isSuperuser = false →
      ∃ res, MailingUpdateView.form_valid actor old d = some res ∧
        res.is_active = old.is_active ∧
        res.title = d.title ∧ res.start_time = d.start_time ∧
        res.end_time = d.end_time ∧ res.message_text = d.message_text ∧
        res.recipients = d.recipients) ∧
    ((actor.isManager = true ∨ actor.isSuperuser = true) →
      ∃ res, MailingUpdateView.form_valid actor old d = some res ∧
        res.is_active = d.is_active) := by
  constructor
  · intro hman hsup
    refine ⟨applyForm old { d with is_active := old.is_active }, ?_, ?_⟩
    · simp [MailingUpdateView.form_valid, hown, hman, hsup]
    · simp [applyForm]
  · intro hrole
    refine ⟨applyForm old d, ?_, ?_⟩
    · have hb : (actor.isManager || actor.isSuperuser) = true := by
        rcases hrole with h | h <;> simp [h]
      simp [MailingUpdateView.form_valid, hown, hb]
    · simp [applyForm]

/-- Witness for C9: a plain owner submitting `is_active := false` on an
active mailing gets back an updated row that is still active and carries
the submitted title. -/
theorem C9_is_active_preserved_witness :
    ∃ res,
      MailingUpdateView.form_valid (Actor.mk 1 false false) mMetrics
          (MailingFormData.mk "new title" 0 10 "new body" [] false) =
        some res ∧ res.is_active = true ∧ res.title = "new title" := by
  have h := (C9_is_active_preserved (Actor.mk 1 false false) mMetrics
      (MailingFormData.mk "new title" 0 10 "new body" [] false) rfl).1 rfl rfl
  rcases h with ⟨res, heq, hact, htitle, _⟩
  exact ⟨res, heq, by rw [hact]; rfl, htitle⟩

/-- Counting two mutually exclusive predicates over one list never
exceeds the list's length. -/
theorem length_filter_add_le_of_disjoint {α : Type} (p q : α → Bool)
    (hpq : ∀ a, p a = true → q a = false) (l : List α) :
    (l.filter p).length + (l.filter q).length ≤ l.length := by
  induction l with
  | nil => simp
  | cons a l ih =>
    by_cases hp : p a = true
    · have hq := hpq a hp
      simp only [List.filter_cons, hp, hq, if_true, Bool.false_eq_true,
        if_false, List.length_cons]
      omega
    · have hp' : p a = false := by simpa using hp
      by_cases hq : q a = true <;>
        simp only [List.filter_cons, hp', hq, Bool.false_eq_true, if_false,
          if_true, List.length_cons] <;>
        omega

/-- C10: `total_count` counts rows of every status while `sent_count`
and `failed_count` count only their own status, so
sent_count + failed_count <= total_count, the derived pending quantity
total - sent - failed is non-negative as an integer, a "pending" row for
the mailing raises `total_count` by one while leaving `sent_count` and
`failed_count` unchanged, and with a nonzero total the denominator of
`success_rate` is that all-status `total_count`. -/
theorem C10_count_invariants (m : Mailing) (db : List MailingLog)
    (l : MailingLog) (hm : l.mailingId = m.id) (hp : l.status = "pending") :
    m.sent_count db + m.failed_count db ≤ m.total_count db ∧
    (0 : ℤ) ≤ (m.total_count db : ℤ) - m.sent_count db - m.failed_count db ∧
    m.total_count (l :: db) = m.total_count db + 1 ∧
    m.sent_count (l :: db) = m.sent_count db ∧
    m.failed_count (l :: db) = m.failed_count db ∧
    (m.total_count db ≠ 0 →
      m.success_rate db =
        pyround2 (((m.sent_count db : ℚ) / (m.total_count db : ℚ)) * 100)) := by
  have hdisj : ∀ x : MailingLog, (x.status == "sent") = true →
      (x.status == "failed") = false := by
    intro x hx
    have : x.status = "sent" := by simpa using hx
    simp [this]
  have hle : m.sent_count db + m.failed_count db ≤ m.total_count db := by
    unfold Mailing.sent_count Mailing.failed_count Mailing.total_count
    exact length_filter_add_le_of_disjoint _ _ hdisj (logsOf m db)
  refine ⟨hle, by omega, ?_, ?_, ?_, ?_⟩
  · simp [Mailing.total_count, logsOf, List.filter_cons, hm]
  · simp [Mailing.sent_count, logsOf, List.filter_cons, hm, hp]
  · simp [Mailing.failed_count, logsOf, List.filter_cons, hm, hp]
  · intro h
    simp [Mailing.success_rate, h]

/-- The pending row of the C10 witness. -/
def pendingLog : MailingLog := ⟨1, 5, "pending", "", ""⟩

/-- Witness for C10: over the ten-row table (7 sent, 3 failed) of
mailing 1, prepending a pending row gives total 11 while the sent and
failed counts stay 7 and 3. -/
theorem C10_count_invariants_witness :
    mMetrics.total_count (pendingLog :: dbTen) = 11 ∧
    mMetrics.sent_count (pendingLog :: dbTen) = 7 ∧
    mMetrics.failed_count (pendingLog :: dbTen) = 3 := by
  have h := C10_count_invariants mMetrics dbTen pendingLog rfl rfl
  refine ⟨?_, ?_, ?_⟩
  · rw [h.2.2.1]; decide
  · rw [h.2.2.2.1]; decide
  · rw [h.2.2.2.2.1]; decide
